import Mathlib

/-!
# Verification of the frontier-exploration decision core

Shallow embedding of `src/custom_explorer/explorer.py` (class `ExplorerNode`):
the frontier detector `find_frontiers`, the selector `choose_frontier`, the
per-tick orchestrator `explore`, and the node state they act on.

Modelling conventions:
* numpy 2D arrays of shape `(height, width)` become a `Grid` holding the
  row-major cell list; `a[r, c]` is `Grid.cellD` (always in range at every
  use site on the map grid) and, where an out-of-range index would raise a
  numpy `IndexError` (the costmap access `costmap_array[r, c]`), the
  bounds-checked `Grid.get?` inside an `Except` computation;
* Python ints are `ℤ`, grid indices `ℕ`, world coordinates (floats used
  only in `col * resolution + origin.x` style expressions) are `ℚ`;
* `np.sqrt` distances are represented by their squares: the only comparisons
  the code performs on them are `distance < min_distance`, and squaring is
  strictly monotone on nonnegative values, so every comparison agrees
  (in fact the code only ever compares against the initial `inf`);
* the Python `set` of visited frontier triples becomes `Finset Frontier`;
* fallible steps return `Except String _`; the tick `explore` returns the
  updated state plus either an action or an uncaught Python exception
  (`IndexError` from mismatched grids, `AttributeError` from the
  `shutdown_robot` / `shudown_robot` method-name typo, which we model via
  the class's literal method-name table).
-/

namespace Explorer

/-- A numpy-style 2D int array of shape `(height, width)`, row-major. -/
structure Grid where
  height : ℕ
  width : ℕ
  data : List ℤ
deriving Repr, DecidableEq

/-- Cell access `g[r, c]` for indices known to be in range (default 0 is
never hit at use sites: the detector only reads map cells inside the grid). -/
def Grid.cellD (g : Grid) (r c : ℕ) : ℤ :=
  g.data.getD (r * g.width + c) 0

/-- Bounds-checked `g[r, c]`: `none` models a numpy `IndexError`, raised
exactly when `r ≥ height` or `c ≥ width`. -/
def Grid.get? (g : Grid) (r c : ℕ) : Option ℤ :=
  if r < g.height ∧ c < g.width then some (g.cellD r c) else none

/-- A frontier candidate: the tuple `(r, c, costmap_array[r, c])` built at
`explorer.py:108`. -/
structure Frontier where
  row : ℕ
  col : ℕ
  cost : ℤ
deriving Repr, DecidableEq

/-- The scan domain of `find_frontiers`: `for r in range(1, rows - 1): for
c in range(1, cols - 1)` — interior cells in row-major order. -/
def interiorCells (g : Grid) : List (ℕ × ℕ) :=
  (List.range' 1 (g.height - 2)).flatMap fun r =>
    (List.range' 1 (g.width - 2)).map fun c => (r, c)

/-- The slice `map_array[r-1:r+2, c-1:c+2].flatten()` (9 cells, centre
included), row-major, as read for an interior cell (`1 ≤ r`, `1 ≤ c`, so
the slice is exactly the rows `r-1, r, r+1` and columns `c-1, c, c+1`). -/
def block3x3 (g : Grid) (r c : ℕ) : List ℤ :=
  [g.cellD (r - 1) (c - 1), g.cellD (r - 1) c, g.cellD (r - 1) (c + 1),
   g.cellD r (c - 1), g.cellD r c, g.cellD r (c + 1),
   g.cellD (r + 1) (c - 1), g.cellD (r + 1) c, g.cellD (r + 1) (c + 1)]

/-- The detector's per-cell test: `map_array[r, c] == 0` and
`-1 in neighbors` (`explorer.py:104-107`). -/
def isFrontierCell (g : Grid) (r c : ℕ) : Bool :=
  g.cellD r c == 0 && decide ((-1 : ℤ) ∈ block3x3 g r c)

/-- The 8 proper neighbours of `(r, c)` in the map grid (the centre cell
excluded); used to state the spec's frontier condition. -/
def neighbors8 (g : Grid) (r c : ℕ) : List ℤ :=
  [g.cellD (r - 1) (c - 1), g.cellD (r - 1) c, g.cellD (r - 1) (c + 1),
   g.cellD r (c - 1), g.cellD r (c + 1),
   g.cellD (r + 1) (c - 1), g.cellD (r + 1) c, g.cellD (r + 1) (c + 1)]

/-- Annotate each frontier cell with `costmap_array[r, c]`, failing with a
numpy `IndexError` at the first out-of-range access, exactly as the Python
expression at `explorer.py:108` would. -/
def annotateCosts (cm : Grid) : List (ℕ × ℕ) → Except String (List Frontier)
  | [] => .ok []
  | rc :: rest =>
    match cm.get? rc.1 rc.2 with
    | none => .error "IndexError: index out of bounds for costmap"
    | some v =>
      match annotateCosts cm rest with
      | .error e => .error e
      | .ok fs => .ok ({ row := rc.1, col := rc.2, cost := v } :: fs)

/-- The detector `find_frontiers(map_array, costmap_array)` (`explorer.py:92-116`).
The robot position is read there only to compute a `distance` that the
function never uses, so it is not a parameter of the result. -/
def findFrontiers (m cm : Grid) : Except String (List Frontier) :=
  annotateCosts cm
    ((interiorCells m).filter fun rc => isFrontierCell m rc.1 rc.2)

/-- Squared Euclidean distance from the robot cell to a frontier cell; the
square of the `np.sqrt(...)` at `explorer.py:137`. -/
def distSq (pos : ℤ × ℤ) (f : Frontier) : ℤ :=
  (pos.1 - (f.row : ℤ)) ^ 2 + (pos.2 - (f.col : ℤ)) ^ 2

/-- The comparison `d < min_distance` where `none` is the initial `float(inf)`. -/
def distLtMin (d : ℤ) : Option ℤ → Bool
  | none => true
  | some m => d < m

/-- The truthiness test `chosen_frontier and frontier[2] <= chosen_frontier[2]`:
`False` while `chosen_frontier` is `None`, otherwise the cost comparison. -/
def costTie : Option Frontier → Frontier → Bool
  | none, _ => false
  | some ch, f => f.cost ≤ ch.cost

/-- Loop state of `choose_frontier`: `min_distance` (squared; `none` =
`inf`) and `chosen_frontier`. -/
structure SelAcc where
  minDist : Option ℤ
  chosen : Option Frontier
deriving Repr, DecidableEq

/-- One iteration of the loop at `explorer.py:133-148`.  The guard is the
Python expression `distance < min_distance and (not chosen_frontier) or
(chosen_frontier and frontier[2] <= chosen_frontier[2])`, with Python's
precedence (`and` binds tighter than `or`). -/
def selStep (pos : ℤ × ℤ) (visited : Finset Frontier) (acc : SelAcc)
    (f : Frontier) : SelAcc :=
  if f ∈ visited then acc
  else
    let d := distSq pos f
    if (distLtMin d acc.minDist && acc.chosen.isNone) || costTie acc.chosen f
    then { minDist := some d, chosen := some f }
    else acc

/-- The selector `choose_frontier(frontiers)` (`explorer.py:118-168`): returns the chosen
frontier (if any) and the updated visited set (the chosen triple is added
to `visited_frontiers` at `explorer.py:151`). -/
def chooseFrontier (pos : ℤ × ℤ) (visited : Finset Frontier)
    (frontiers : List Frontier) : Option Frontier × Finset Frontier :=
  let acc := frontiers.foldl (selStep pos visited) { minDist := none, chosen := none }
  match acc.chosen with
  | some ch => (some ch, insert ch visited)
  | none => (none, visited)

/-- An `OccupancyGrid` message as `explore` consumes it: the reshaped cell
grid plus `info.resolution` and `info.origin.position`. -/
structure MapMsg where
  grid : Grid
  resolution : ℚ
  originX : ℚ
  originY : ℚ
deriving Repr, DecidableEq

/-- The mutable fields of `ExplorerNode` (`explorer.py:28-33`). -/
structure NodeState where
  visitedFrontiers : Finset Frontier
  mapData : Option MapMsg
  costmapData : Option MapMsg
  robotPosition : ℤ × ℤ
deriving DecidableEq

/-- Initialisation `ExplorerNode.__init__`: empty visited set, no grids yet, robot
position placeholder `(0, 0)` (`explorer.py:33`). -/
def initState : NodeState :=
  { visitedFrontiers := ∅
    mapData := none
    costmapData := none
    robotPosition := (0, 0) }

/-- The method names the class `ExplorerNode` actually defines; Python
attribute lookup on `self` succeeds exactly for these.  Note the defined
name is `shudown_robot` (`explorer.py:208`), while `explore` calls
`self.shutdown_robot()` (`explorer.py:191`). -/
def explorerMethods : List String :=
  ["__init__", "map_callback", "costmap_callback", "navigate_to",
   "goal_response_callback", "navigation_complete_callback",
   "find_frontiers", "choose_frontier", "explore", "shudown_robot"]

/-- What a tick externally does. -/
inductive Action where
  /-- An early `return`: nothing submitted, nothing signalled. -/
  | skip
  /-- A call `navigate_to(x, y)`: one navigation goal submitted. -/
  | navigate (x y : ℚ)
  /-- A call of `shudown_robot()`: the completion signal (`destroy_node` +
  `rclpy.shutdown`). -/
  | shutdown
deriving Repr, DecidableEq

/-- One timer tick, `explore(self)` (`explorer.py:170-206`): returns the
updated node state and either the tick's action or an uncaught exception. -/
def explore (s : NodeState) : NodeState × Except String Action :=
  match s.mapData with
  | none => (s, .ok .skip)
  | some m =>
    match s.costmapData with
    | none => (s, .ok .skip)
    | some cm =>
      match findFrontiers m.grid cm.grid with
      | .error e => (s, .error e)
      | .ok [] =>
        if explorerMethods.contains "shutdown_robot"
        then (s, .ok .shutdown)
        else (s, .error "AttributeError: ExplorerNode object has no attribute shutdown_robot")
      | .ok (f :: fs) =>
        let res := chooseFrontier s.robotPosition s.visitedFrontiers (f :: fs)
        let s2 : NodeState := { s with visitedFrontiers := res.2 }
        match res.1 with
        | none => (s2, .ok .skip)
        | some ch =>
          (s2, .ok (.navigate ((ch.col : ℚ) * m.resolution + m.originX)
                              ((ch.row : ℚ) * m.resolution + m.originY)))

/-- The asynchronous events the node reacts to. -/
inductive Event where
  /-- A map update, `map_callback(msg)` (`explorer.py:38-40`). -/
  | mapMsg (m : MapMsg)
  /-- A costmap update, `costmap_callback(msg)` (`explorer.py:42-44`). -/
  | costmapMsg (m : MapMsg)
  /-- A firing of the 5-second exploration timer. -/
  | tick

/-- State transition for one event. -/
def stepState (s : NodeState) : Event → NodeState
  | .mapMsg m => { s with mapData := some m }
  | .costmapMsg m => { s with costmapData := some m }
  | .tick => (explore s).1

/-- The node state after a sequence of events from startup. -/
def runEvents (evs : List Event) : NodeState :=
  evs.foldl stepState initState

/-- Row-major (lexicographic) strict order on frontiers. -/
def frontierLexLt (a b : Frontier) : Prop :=
  a.row < b.row ∨ (a.row = b.row ∧ a.col < b.col)

/-- Row-major (lexicographic) strict order on grid cells. -/
def pairLexLt (a b : ℕ × ℕ) : Prop :=
  a.1 < b.1 ∨ (a.1 = b.1 ∧ a.2 < b.2)

/-- Scenario B map (spec §8): 5×5, all free except the unknown centre
`(2,2)`. -/
def scenBMap : Grid :=
  { height := 5, width := 5
    data := [0, 0, 0, 0, 0,
             0, 0, 0, 0, 0,
             0, 0, -1, 0, 0,
             0, 0, 0, 0, 0,
             0, 0, 0, 0, 0] }

/-- Scenario B costmap: 5×5, uniformly zero cost. -/
def scenBCost : Grid :=
  { height := 5, width := 5, data := List.replicate 25 0 }

/-- The frontier list Scenario B detection produces (row-major). -/
def scenBFrontiers : List Frontier :=
  [⟨1, 1, 0⟩, ⟨1, 2, 0⟩, ⟨1, 3, 0⟩,
   ⟨2, 1, 0⟩, ⟨2, 3, 0⟩,
   ⟨3, 1, 0⟩, ⟨3, 2, 0⟩, ⟨3, 3, 0⟩]

/-- A 6×6 all-zero grid: same cell values as `scenBCost` but mismatched
dimensions (for the dimension-mismatch claim). -/
def bigCost : Grid :=
  { height := 6, width := 6, data := List.replicate 36 0 }

/-- A 3×3 fully-known free map: no unknown cells, so no frontiers. -/
def noFrontierGrid : Grid :=
  { height := 3, width := 3, data := List.replicate 9 0 }

/-- Message wrapping `noFrontierGrid` with the reference resolution and
origin. -/
def noFrontierMsg : MapMsg :=
  { grid := noFrontierGrid, resolution := 1 / 20, originX := -1, originY := -1 }

/-- A ready node state whose next tick detects no frontiers. -/
def noFrontierState : NodeState :=
  { visitedFrontiers := ∅
    mapData := some noFrontierMsg
    costmapData := some noFrontierMsg
    robotPosition := (0, 0) }

/-- A 3×3 map with one unknown corner, giving exactly one frontier at
`(1,1)`. -/
def oneFrontierGrid : Grid :=
  { height := 3, width := 3, data := [-1, 0, 0, 0, 0, 0, 0, 0, 0] }

/-- Message wrapping `oneFrontierGrid` with the reference resolution and
origin. -/
def oneFrontierMsg : MapMsg :=
  { grid := oneFrontierGrid, resolution := 1 / 20, originX := -1, originY := -1 }

/-- A ready node state whose next tick detects exactly one frontier. -/
def oneFrontierState : NodeState :=
  { visitedFrontiers := ∅
    mapData := some oneFrontierMsg
    costmapData := some oneFrontierMsg
    robotPosition := (0, 0) }

/-! ## Helper lemmas -/

/-- Membership in the scan domain is exactly interiority. -/
lemma mem_interiorCells {g : Grid} {rc : ℕ × ℕ} :
    rc ∈ interiorCells g ↔
      1 ≤ rc.1 ∧ rc.1 ≤ g.height - 2 ∧ 1 ≤ rc.2 ∧ rc.2 ≤ g.width - 2 := by
  obtain ⟨r, c⟩ := rc
  simp only [interiorCells, List.mem_flatMap, List.mem_map, List.mem_range'_1,
    Prod.mk.injEq]
  constructor
  · rintro ⟨r', hr', c', hc', rfl, rfl⟩
    omega
  · rintro ⟨h1, h2, h3, h4⟩
    exact ⟨r, by omega, c, by omega, rfl, rfl⟩

/-- The scan domain is strictly increasing in row-major order. -/
lemma pairwise_interiorCells (g : Grid) :
    (interiorCells g).Pairwise pairLexLt := by
  rw [interiorCells, List.pairwise_flatMap]
  constructor
  · intro r hr
    rw [List.pairwise_map]
    exact (List.pairwise_lt_range' _ _).imp fun h => Or.inr ⟨rfl, h⟩
  · refine (List.pairwise_lt_range' _ _).imp ?_
    intro a b hab x hx y hy
    simp only [List.mem_map] at hx hy
    obtain ⟨c1, -, rfl⟩ := hx
    obtain ⟨c2, -, rfl⟩ := hy
    exact Or.inl hab

/-- Cost annotation fails exactly when some scanned cell is outside the
costmap's bounds. -/
lemma annotateCosts_error_iff {cm : Grid} {l : List (ℕ × ℕ)} :
    (∃ e, annotateCosts cm l = .error e) ↔
      ∃ rc ∈ l, cm.get? rc.1 rc.2 = none := by
  induction l with
  | nil => simp [annotateCosts]
  | cons rc rest ih =>
    cases h : cm.get? rc.1 rc.2 with
    | none => simp [annotateCosts, h]
    | some v =>
      cases h2 : annotateCosts cm rest with
      | error e =>
        simp only [annotateCosts, h, h2, List.mem_cons]
        constructor
        · intro _
          obtain ⟨rc', hmem, hnone⟩ := ih.mp ⟨e, h2⟩
          exact ⟨rc', Or.inr hmem, hnone⟩
        · intro _
          exact ⟨e, rfl⟩
      | ok fs =>
        simp only [annotateCosts, h, h2, List.mem_cons]
        constructor
        · rintro ⟨e, he⟩
          cases he
        · rintro ⟨rc', hmem, hnone⟩
          rcases hmem with rfl | hmem
          · rw [h] at hnone
            cases hnone
          · obtain ⟨e, he⟩ := ih.mpr ⟨rc', hmem, hnone⟩
            rw [h2] at he
            cases he

/-- On success, every scanned cell was inside the costmap's bounds. -/
lemma annotateCosts_ok_isSome {cm : Grid} {l : List (ℕ × ℕ)} {fs : List Frontier}
    (h : annotateCosts cm l = .ok fs) :
    ∀ rc ∈ l, (cm.get? rc.1 rc.2).isSome = true := by
  induction l generalizing fs with
  | nil => simp
  | cons rc rest ih =>
    intro rc' hrc'
    cases hg : cm.get? rc.1 rc.2 with
    | none => rw [annotateCosts, hg] at h; cases h
    | some v =>
      rw [annotateCosts, hg] at h
      cases h2 : annotateCosts cm rest with
      | error e => rw [h2] at h; cases h
      | ok fs' =>
        rcases List.mem_cons.mp hrc' with rfl | hmem
        · rw [hg]; rfl
        · exact ih h2 rc' hmem

/-- On success, the annotated list is the scanned list with each cell's
costmap value attached. -/
lemma annotateCosts_ok_eq {cm : Grid} {l : List (ℕ × ℕ)} {fs : List Frontier}
    (h : annotateCosts cm l = .ok fs) :
    fs = l.map fun rc => ⟨rc.1, rc.2, (cm.get? rc.1 rc.2).getD 0⟩ := by
  induction l generalizing fs with
  | nil =>
    rw [annotateCosts] at h
    cases h
    rfl
  | cons rc rest ih =>
    cases hg : cm.get? rc.1 rc.2 with
    | none => rw [annotateCosts, hg] at h; cases h
    | some v =>
      rw [annotateCosts, hg] at h
      cases h2 : annotateCosts cm rest with
      | error e => rw [h2] at h; cases h
      | ok fs' =>
        rw [h2] at h
        cases h
        simp [ih h2, hg]

/-- A successful detection result, reformulated as a pure map over the
filtered scan domain. -/
lemma findFrontiers_ok_eq {m cm : Grid} {l : List Frontier}
    (h : findFrontiers m cm = .ok l) :
    l = ((interiorCells m).filter fun rc => isFrontierCell m rc.1 rc.2).map
          fun rc => ⟨rc.1, rc.2, (cm.get? rc.1 rc.2).getD 0⟩ :=
  annotateCosts_ok_eq h

/-- The per-cell test, restated with the centre split off from its 8
neighbours. -/
lemma isFrontierCell_iff {g : Grid} {r c : ℕ} :
    isFrontierCell g r c = true ↔
      g.cellD r c = 0 ∧ (-1 : ℤ) ∈ neighbors8 g r c := by
  simp only [isFrontierCell, Bool.and_eq_true, beq_iff_eq, decide_eq_true_eq,
    block3x3, neighbors8, List.mem_cons, List.not_mem_nil, or_false]
  constructor
  · rintro ⟨h0, hmem⟩
    refine ⟨h0, ?_⟩
    rcases hmem with h | h | h | h | h | h | h | h | h <;>
      first
        | (exfalso; rw [h0] at h; exact absurd h.symm (by decide))
        | tauto
  · rintro ⟨h0, hmem⟩
    exact ⟨h0, by tauto⟩

/-- Membership in a successful detection output. -/
lemma mem_findFrontiers {m cm : Grid} {l : List Frontier}
    (h : findFrontiers m cm = .ok l) {r c : ℕ} {v : ℤ} :
    (⟨r, c, v⟩ : Frontier) ∈ l ↔
      (1 ≤ r ∧ r ≤ m.height - 2 ∧ 1 ≤ c ∧ c ≤ m.width - 2 ∧
       isFrontierCell m r c = true ∧ cm.get? r c = some v) := by
  have hl := findFrontiers_ok_eq h
  subst hl
  simp only [List.mem_map, List.mem_filter]
  constructor
  · rintro ⟨⟨r', c'⟩, ⟨hint, hfr⟩, heq⟩
    rw [Frontier.mk.injEq] at heq
    obtain ⟨rfl, rfl, hv⟩ := heq
    obtain ⟨h1, h2, h3, h4⟩ := mem_interiorCells.mp hint
    have hsome : (cm.get? r' c').isSome = true :=
      annotateCosts_ok_isSome h (r', c') (List.mem_filter.mpr ⟨hint, hfr⟩)
    refine ⟨h1, h2, h3, h4, hfr, ?_⟩
    obtain ⟨w, hw⟩ := Option.isSome_iff_exists.mp hsome
    rw [hw] at hv ⊢
    simpa using congrArg some hv
  · rintro ⟨h1, h2, h3, h4, hfr, hv⟩
    refine ⟨(r, c), ⟨mem_interiorCells.mpr ⟨h1, h2, h3, h4⟩, hfr⟩, ?_⟩
    simp [hv]

/-- A successful detection output has no duplicate entries. -/
lemma findFrontiers_ok_nodup {m cm : Grid} {l : List Frontier}
    (h : findFrontiers m cm = .ok l) : l.Nodup := by
  rw [findFrontiers_ok_eq h]
  apply List.Nodup.map_on
  · intro x hx y hy hxy
    have hr := congrArg Frontier.row hxy
    have hc := congrArg Frontier.col hxy
    exact Prod.ext hr hc
  · exact ((pairwise_interiorCells m).filter _).imp fun hlt => by
      rintro rfl
      rcases hlt with h | ⟨-, h⟩ <;> exact lt_irrefl _ h

/-- A successful detection output is strictly increasing in row-major
order. -/
lemma findFrontiers_ok_pairwise {m cm : Grid} {l : List Frontier}
    (h : findFrontiers m cm = .ok l) : l.Pairwise frontierLexLt := by
  rw [findFrontiers_ok_eq h]
  rw [List.pairwise_map]
  exact ((pairwise_interiorCells m).filter _).imp fun hlt => hlt

/-- Loop invariant of `choose_frontier`: the running `chosen_frontier` is
never a member of `visited_frontiers` (visited triples are skipped). -/
lemma foldl_selStep_chosen_not_visited (pos : ℤ × ℤ) (visited : Finset Frontier)
    (frontiers : List Frontier) :
    ∀ acc : SelAcc, (∀ g, acc.chosen = some g → g ∉ visited) →
      ∀ g, (frontiers.foldl (selStep pos visited) acc).chosen = some g →
        g ∉ visited := by
  induction frontiers with
  | nil => exact fun acc hacc => hacc
  | cons f fs ih =>
    intro acc hacc
    refine ih (selStep pos visited acc f) ?_
    intro g hg
    unfold selStep at hg
    by_cases hv : f ∈ visited
    · rw [if_pos hv] at hg
      exact hacc g hg
    · rw [if_neg hv] at hg
      by_cases htake :
          (distLtMin (distSq pos f) acc.minDist && acc.chosen.isNone) ||
            costTie acc.chosen f
      · rw [if_pos htake] at hg
        cases hg
        exact hv
      · rw [if_neg htake] at hg
        exact hacc g hg

/-- A tick never changes the robot position (no code path assigns
`self.robot_position` after `__init__`). -/
lemma explore_preserves_robotPosition (s : NodeState) :
    (explore s).1.robotPosition = s.robotPosition := by
  cases hm : s.mapData with
  | none => simp [explore, hm]
  | some m =>
    cases hc : s.costmapData with
    | none => simp [explore, hm, hc]
    | some cm =>
      cases hf : findFrontiers m.grid cm.grid with
      | error e => simp [explore, hm, hc, hf]
      | ok l =>
        cases l with
        | nil =>
          simp only [explore, hm, hc, hf]
          split <;> rfl
        | cons f fs =>
          simp only [explore, hm, hc, hf]
          cases hch : (chooseFrontier s.robotPosition s.visitedFrontiers (f :: fs)).1 with
          | none => simp [hch]
          | some ch => simp [hch]

/-- Any single event preserves the robot position. -/
lemma stepState_preserves_robotPosition (s : NodeState) (e : Event) :
    (stepState s e).robotPosition = s.robotPosition := by
  cases e with
  | mapMsg m => rfl
  | costmapMsg m => rfl
  | tick => exact explore_preserves_robotPosition s

/-- Folding events preserves the robot position. -/
lemma foldl_stepState_robotPosition :
    ∀ (evs : List Event) (s : NodeState),
      (evs.foldl stepState s).robotPosition = s.robotPosition := by
  intro evs
  induction evs with
  | nil => intro s; rfl
  | cons e rest ih =>
    intro s
    rw [List.foldl_cons, ih (stepState s e), stepState_preserves_robotPosition]

/-! ## The claims -/

/-- C1 (code_bug evidence): on the Scenario B map (5×5, all free except the
unknown centre, uniform zero costmap) with robot position `(0, 0)` and an
empty visited set, `choose_frontier` returns the frontier at `(3, 3)` — the
last one in scan order — even though the frontier at `(1, 1)` is present
and strictly nearer to the robot.  The spec's claimed policy ("return the
unvisited frontier minimising Euclidean distance, i.e. `(1, 1)`") is
violated: once a first candidate is chosen, the guard at `explorer.py:144`
degenerates to the cost comparison `frontier[2] <= chosen_frontier[2]`
because Python's `and` binds tighter than `or`. -/
theorem C1_selection_not_nearest :
    findFrontiers scenBMap scenBCost = .ok scenBFrontiers ∧
    (chooseFrontier (0, 0) ∅ scenBFrontiers).1 = some ⟨3, 3, 0⟩ ∧
    (⟨1, 1, 0⟩ : Frontier) ∈ scenBFrontiers ∧
    distSq (0, 0) ⟨1, 1, 0⟩ < distSq (0, 0) ⟨3, 3, 0⟩ := by
  refine ⟨rfl, by decide, by decide, by decide⟩

/-- C2 (code_bug evidence): on a tick whose detection returns no frontiers
(here a fully-known 3×3 free map), `explore` calls `self.shutdown_robot()`,
but the class only defines a method named `shudown_robot`
(`explorer.py:208`), so the tick raises `AttributeError` instead of running
the shutdown routine: no completion signal is issued. -/
theorem C2_shutdown_call_raises :
    "shutdown_robot" ∉ explorerMethods ∧
    "shudown_robot" ∈ explorerMethods ∧
    findFrontiers noFrontierGrid noFrontierGrid = .ok [] ∧
    explore noFrontierState =
      (noFrontierState,
       .error "AttributeError: ExplorerNode object has no attribute shutdown_robot") := by
  refine ⟨by decide, by decide, rfl, rfl⟩

/-- C3: a cell appears in a successful detection output exactly when it is
an interior cell whose map value is 0 with some 8-neighbour equal to -1,
and it then appears exactly once, annotated with the costmap's value at the
same cell. -/
theorem C3_frontier_condition (m cm : Grid) (l : List Frontier)
    (h : findFrontiers m cm = .ok l) (r c : ℕ) (v : ℤ) :
    ((⟨r, c, v⟩ : Frontier) ∈ l ↔
      (1 ≤ r ∧ r ≤ m.height - 2 ∧ 1 ≤ c ∧ c ≤ m.width - 2 ∧
       m.cellD r c = 0 ∧ (-1 : ℤ) ∈ neighbors8 m r c ∧
       cm.get? r c = some v)) ∧
    ((⟨r, c, v⟩ : Frontier) ∈ l → l.count ⟨r, c, v⟩ = 1) := by
  constructor
  · rw [mem_findFrontiers h]
    constructor
    · rintro ⟨h1, h2, h3, h4, hfr, hv⟩
      obtain ⟨h0, hn⟩ := isFrontierCell_iff.mp hfr
      exact ⟨h1, h2, h3, h4, h0, hn, hv⟩
    · rintro ⟨h1, h2, h3, h4, h0, hn, hv⟩
      exact ⟨h1, h2, h3, h4, isFrontierCell_iff.mpr ⟨h0, hn⟩, hv⟩
  · intro hmem
    exact List.count_eq_one_of_mem (findFrontiers_ok_nodup h) hmem

/-- Witness for C3 at Scenario B, cell `(1, 1)` with cost 0. -/
theorem C3_witness :
    (((⟨1, 1, 0⟩ : Frontier) ∈ scenBFrontiers ↔
      (1 ≤ 1 ∧ 1 ≤ scenBMap.height - 2 ∧ 1 ≤ 1 ∧ 1 ≤ scenBMap.width - 2 ∧
       scenBMap.cellD 1 1 = 0 ∧ (-1 : ℤ) ∈ neighbors8 scenBMap 1 1 ∧
       scenBCost.get? 1 1 = some 0)) ∧
    ((⟨1, 1, 0⟩ : Frontier) ∈ scenBFrontiers →
      scenBFrontiers.count ⟨1, 1, 0⟩ = 1)) :=
  C3_frontier_condition scenBMap scenBCost scenBFrontiers rfl 1 1 0

/-- C4 (counterexample): visited-set identity in the code is the full
`(row, col, cost)` triple, not the `(row, col)` pair.  With the triple
`(1, 1, 5)` already in `visited_frontiers`, a fresh detection of the same
cell with a changed cost 7 is selected again: `select` returns a frontier
whose `(row, col)` identity was previously selected. -/
theorem C4_counterexample :
    (⟨1, 1, 5⟩ : Frontier) ∈ ({⟨1, 1, 5⟩} : Finset Frontier) ∧
    (chooseFrontier (0, 0) {⟨1, 1, 5⟩} [⟨1, 1, 7⟩]).1 = some ⟨1, 1, 7⟩ ∧
    (Frontier.row ⟨1, 1, 7⟩, Frontier.col ⟨1, 1, 7⟩) =
      (Frontier.row ⟨1, 1, 5⟩, Frontier.col ⟨1, 1, 5⟩) := by
  refine ⟨by decide, by decide, rfl⟩

/-- C4 (amended): with identity taken as the full `(row, col, cost)`
triple, the visited set only grows: a successful selection returns a
frontier not yet in `visited`, inserts exactly that frontier, and
increases the visited cardinality by one (so after `k` successful
selections with distinct triples it has exactly `k` entries, and no
previously selected triple is ever returned again). -/
theorem C4_visited_monotone (pos : ℤ × ℤ) (visited : Finset Frontier)
    (frontiers : List Frontier) (f : Frontier) (v2 : Finset Frontier)
    (h : chooseFrontier pos visited frontiers = (some f, v2)) :
    f ∉ visited ∧ v2 = insert f visited ∧ visited ⊆ v2 ∧
      v2.card = visited.card + 1 := by
  simp only [chooseFrontier] at h
  cases hch : (frontiers.foldl (selStep pos visited)
      { minDist := none, chosen := none }).chosen with
  | none => rw [hch] at h; cases h
  | some ch =>
    rw [hch] at h
    have h1 : some ch = some f := congrArg Prod.fst h
    have h2 : insert ch visited = v2 := congrArg Prod.snd h
    obtain rfl : ch = f := Option.some.inj h1
    subst h2
    have hnot : ch ∉ visited :=
      foldl_selStep_chosen_not_visited pos visited frontiers
        { minDist := none, chosen := none } (by rintro g ⟨⟩) ch hch
    exact ⟨hnot, rfl, Finset.subset_insert _ _,
      Finset.card_insert_of_not_mem hnot⟩

/-- Witness for C4 (amended): selecting the single unvisited frontier
`(1, 1, 0)` from an empty visited set. -/
theorem C4_witness :
    (⟨1, 1, 0⟩ : Frontier) ∉ (∅ : Finset Frontier) ∧
    ({⟨1, 1, 0⟩} : Finset Frontier) = insert ⟨1, 1, 0⟩ ∅ ∧
    (∅ : Finset Frontier) ⊆ {⟨1, 1, 0⟩} ∧
    ({⟨1, 1, 0⟩} : Finset Frontier).card = (∅ : Finset Frontier).card + 1 :=
  C4_visited_monotone (0, 0) ∅ [⟨1, 1, 0⟩] ⟨1, 1, 0⟩ {⟨1, 1, 0⟩} (by decide)

/-- C5 (counterexample): a dimension mismatch is NOT surfaced when the
costmap is larger than the map: with the 5×5 Scenario B map and a 6×6
costmap (different height and width), detection silently succeeds and
returns the same frontier list. -/
theorem C5_counterexample :
    scenBMap.height ≠ bigCost.height ∧ scenBMap.width ≠ bigCost.width ∧
    findFrontiers scenBMap bigCost = .ok scenBFrontiers := by
  refine ⟨by decide, by decide, rfl⟩

/-- C5 (amended): detection surfaces an error (the numpy `IndexError` from
`costmap_array[r, c]`) precisely when some detected frontier cell lies
outside the costmap's bounds; any other dimension mismatch — in particular
a costmap strictly larger than the map — is silently accepted and frontiers
are computed from the mismatched grids. -/
theorem C5_mismatch_surfaced_iff (m cm : Grid) :
    (∃ e, findFrontiers m cm = .error e) ↔
      ∃ rc ∈ (interiorCells m).filter (fun rc => isFrontierCell m rc.1 rc.2),
        cm.get? rc.1 rc.2 = none :=
  annotateCosts_error_iff

/-- C6: a successful detection never emits a border cell: no output
frontier has row 0 or `height - 1`, and none has column 0 or
`width - 1`. -/
theorem C6_border_exclusion (m cm : Grid) (l : List Frontier) (f : Frontier)
    (h : findFrontiers m cm = .ok l) (hf : f ∈ l) :
    f.row ≠ 0 ∧ f.row ≠ m.height - 1 ∧ f.col ≠ 0 ∧ f.col ≠ m.width - 1 := by
  have hf2 : (⟨f.row, f.col, f.cost⟩ : Frontier) ∈ l := hf
  obtain ⟨h1, h2, h3, h4, -, -⟩ := (mem_findFrontiers h).mp hf2
  omega

/-- Witness for C6 at Scenario B, frontier `(1, 1, 0)`. -/
theorem C6_witness :
    (⟨1, 1, 0⟩ : Frontier).row ≠ 0 ∧
    (⟨1, 1, 0⟩ : Frontier).row ≠ scenBMap.height - 1 ∧
    (⟨1, 1, 0⟩ : Frontier).col ≠ 0 ∧
    (⟨1, 1, 0⟩ : Frontier).col ≠ scenBMap.width - 1 :=
  C6_border_exclusion scenBMap scenBCost scenBFrontiers ⟨1, 1, 0⟩
    rfl (by decide)

/-- C7: whenever a tick submits a navigation goal for a chosen frontier,
the world target is exactly `(col * resolution + origin.x,
row * resolution + origin.y)` of the current map message
(`explorer.py:201-203`); with `resolution = 0.05` and origin `(-1, -1)`
this instantiates to `(col * 0.05 - 1, row * 0.05 - 1)`. -/
theorem C7_world_coordinates (s : NodeState) (m cm : MapMsg)
    (l : List Frontier) (f : Frontier) (v2 : Finset Frontier)
    (hm : s.mapData = some m) (hc : s.costmapData = some cm)
    (hl : findFrontiers m.grid cm.grid = .ok l)
    (hch : chooseFrontier s.robotPosition s.visitedFrontiers l = (some f, v2)) :
    explore s =
      ({ s with visitedFrontiers := v2 },
       .ok (.navigate ((f.col : ℚ) * m.resolution + m.originX)
                      ((f.row : ℚ) * m.resolution + m.originY))) := by
  cases l with
  | nil => simp [chooseFrontier] at hch
  | cons f0 fs => simp [explore, hm, hc, hl, hch]

/-- Witness for C7: a 3×3 map with one unknown corner, one frontier at
`(1, 1)`, `resolution = 1/20`, origin `(-1, -1)`: the goal is
`(1 * 1/20 - 1, 1 * 1/20 - 1)`. -/
theorem C7_witness :
    explore oneFrontierState =
      ({ oneFrontierState with visitedFrontiers := {⟨1, 1, 0⟩} },
       .ok (.navigate (((1 : ℕ) : ℚ) * oneFrontierMsg.resolution + oneFrontierMsg.originX)
                      (((1 : ℕ) : ℚ) * oneFrontierMsg.resolution + oneFrontierMsg.originY))) :=
  C7_world_coordinates oneFrontierState oneFrontierMsg oneFrontierMsg
    [⟨1, 1, 0⟩] ⟨1, 1, 0⟩ {⟨1, 1, 0⟩} rfl rfl rfl (by decide)

/-- C8: detection is deterministic — identical inputs give identical
results — and a successful output is strictly increasing in row-major
scan order. -/
theorem C8_deterministic_row_major (m cm : Grid) (l : List Frontier)
    (h : findFrontiers m cm = .ok l) :
    findFrontiers m cm = findFrontiers m cm ∧ l.Pairwise frontierLexLt :=
  ⟨rfl, findFrontiers_ok_pairwise h⟩

/-- Witness for C8 at Scenario B. -/
theorem C8_witness :
    findFrontiers scenBMap scenBCost = findFrontiers scenBMap scenBCost ∧
    scenBFrontiers.Pairwise frontierLexLt :=
  C8_deterministic_row_major scenBMap scenBCost scenBFrontiers rfl

/-- C9: a tick at which either grid is still missing is a no-op: the state
(including the visited set) is unchanged, no goal is submitted, and no
shutdown is signalled. -/
theorem C9_not_ready_is_noop (s : NodeState)
    (h : s.mapData = none ∨ s.costmapData = none) :
    explore s = (s, .ok .skip) := by
  rcases h with h | h
  · simp [explore, h]
  · cases hm : s.mapData with
    | none => simp [explore, hm]
    | some m => simp [explore, hm, h]

/-- Witness for C9: the freshly initialised node. -/
theorem C9_witness : explore initState = (initState, .ok .skip) :=
  C9_not_ready_is_noop initState (Or.inl rfl)

/-- C10: the robot position is initialised to `(0, 0)` and no operation of
the node (map update, costmap update, or tick) ever changes it, so every
distance computed by detection and selection is measured from `(0, 0)`. -/
theorem C10_robot_position_never_updated :
    initState.robotPosition = (0, 0) ∧
    ∀ evs : List Event, (runEvents evs).robotPosition = (0, 0) :=
  ⟨rfl, fun evs => foldl_stepState_robotPosition evs initState⟩

end Explorer
